import Mathlib

/-!
Verification of the logical-checksum engine of the postgres_checksums fork.

The development shallowly embeds the checksum composition functions of
`src/backend/storage/checksum/checksum_column.c`, `checksum_tuple.c`,
`checksum_index.c`, `checksum_database.c` and the SQL bindings in
`checksumfuncs.c`.  C `uint32` arithmetic is represented on `Nat` with
explicit reduction modulo `2^32` at the points where the C code truncates;
`uint32`-typed C variables (transaction ids, offset numbers, OIDs) are
represented as `Nat` fields, with boundedness hypotheses added in the
theorems that need them.
-/

namespace PgChecksums

/-- Reserved sentinel fingerprint for NULL column values
(`CHECKSUM_NULL` in `src/include/storage/checksum_column.h`). -/
def CHECKSUM_NULL : Nat := 0xFFFFFFFF

/-- Modelled from the spec: the implementation of `pg_checksum_data`
(declared in `src/include/storage/checksum.h`) is not part of the sources
under review; only its declaration and callers are.  The model follows the
Byte Mixer contract of spec §4.1 (deterministic, pure, seeded, defined for
arbitrary — including zero — span lengths) together with the round
function `CHECKSUM_COMP` documented in the repository README:
`tmp = checksum ^ value; checksum = tmp * FNV_PRIME ^ (tmp >> 17)` in
`uint32` arithmetic.  This is one round of that FNV-1a variant. -/
def CHECKSUM_COMP (checksum value : Nat) : Nat :=
  let tmp := (checksum ^^^ value) % 4294967296
  ((tmp * 16777619) % 4294967296) ^^^ (tmp >>> 17)

/-- Modelled from the spec: `pg_checksum_data(data, len, init_value)`
folds the byte span into a 32-bit accumulator that starts from the
caller-supplied seed, one `CHECKSUM_COMP` round per byte.  A zero-length
span returns a function of the seed alone, as §4.1 requires. -/
def pg_checksum_data (data : List Nat) (init_value : Nat) : Nat :=
  data.foldl CHECKSUM_COMP (init_value % 4294967296)

/-- Storage-class fields of a `pg_type` row, as read by
`pg_column_checksum_internal` (`typbyval`, `typlen`). -/
structure TypeForm where
  typbyval : Bool
  typlen : Int
deriving DecidableEq

/-- Decoded column value handed to `pg_column_checksum_internal` as a
`Datum`.  The constructor mirrors the storage class the C code reads the
datum under: an inline 64-bit word, a (detoasted) varlena span including
its length header, a NUL-terminated string (bytes exclude the
terminator), or a pointer to a fixed-size buffer that may be absent. -/
inductive Datum where
  | byval (w : Nat)
  | varlena (bytes : List Nat)
  | cstring (bytes : List Nat)
  | fixedref (buf : Option (List Nat))
deriving DecidableEq

/-- Error kinds surfaced by `elog(ERROR, ...)` / `ereport(ERROR, ...)`
in the embedded functions. -/
inductive CkError where
  | unknownType
  | invalidEncoding
  | invalidAttnum
  | invalidPosition
  | tupleNotUsed
deriving DecidableEq

/-- Little-endian byte decomposition of a machine word: `leBytes n w`
is the first `n` bytes of `w`.  Used for the `(char *) &value` view a
pass-by-value datum gets in `pg_column_checksum_internal`. -/
def leBytes : Nat → Nat → List Nat
  | 0, _ => []
  | n + 1, w => (w % 256) :: leBytes n (w / 256)

/-- Byte span selected by the storage-class dispatch ladder of
`pg_column_checksum_internal` (`checksum_column.c:93-148`): the datum's
own bytes truncated to `typlen` for fixed-width pass-by-value types, the
full (detoasted) varlena including its header for `typlen = -1`, the
string without terminator for `typlen = -2`, and the referenced
`typlen`-byte buffer otherwise (an absent reference is the
`elog(ERROR, "invalid pointer ...")` path). -/
def column_span (typeForm : TypeForm) (value : Datum) :
    Except CkError (List Nat) :=
  if typeForm.typbyval ∧ typeForm.typlen > 0 then
    match value with
    | .byval w => .ok ((leBytes 8 w).take typeForm.typlen.toNat)
    | _ => .error .invalidEncoding
  else if typeForm.typlen = -1 then
    match value with
    | .varlena bytes => .ok bytes
    | _ => .error .invalidEncoding
  else if typeForm.typlen = -2 then
    match value with
    | .cstring bytes => .ok bytes
    | _ => .error .invalidEncoding
  else
    match value with
    | .fixedref (some buf) => .ok (buf.take typeForm.typlen.toNat)
    | _ => .error .invalidEncoding

/-- Embedding of `pg_column_checksum_internal`
(`checksum_column.c:65-164`).  The syscache lookup becomes the explicit
`catalog` argument; a datum whose constructor does not match the looked-up
storage class corresponds to a type-confused call that the C code would
read through a wild pointer, and is modelled as `invalidEncoding`.
`typmod` is accepted and ignored exactly as in the source. -/
def pg_column_checksum_internal (catalog : Nat → Option TypeForm)
    (value : Datum) (isnull : Bool) (typid : Nat) (typmod : Int)
    (attnum : Nat) : Except CkError Nat :=
  if isnull then .ok CHECKSUM_NULL
  else
    match catalog typid with
    | none => .error .unknownType
    | some typeForm =>
      match column_span typeForm value with
      | .error e => .error e
      | .ok data =>
        .ok (if pg_checksum_data data attnum = CHECKSUM_NULL then
               (CHECKSUM_NULL ^^^ attnum ^^^ typid) &&& 0xFFFFFFFE
             else pg_checksum_data data attnum)

theorem CHECKSUM_COMP_lt (c v : Nat) : CHECKSUM_COMP c v < 4294967296 := by
  unfold CHECKSUM_COMP
  have h1 : (((c ^^^ v) % 4294967296) * 16777619) % 4294967296 < 4294967296 :=
    Nat.mod_lt _ (by norm_num)
  have h2 : ((c ^^^ v) % 4294967296) >>> 17 < 4294967296 := by
    have hm : (c ^^^ v) % 4294967296 < 4294967296 := Nat.mod_lt _ (by norm_num)
    calc ((c ^^^ v) % 4294967296) >>> 17
        = (c ^^^ v) % 4294967296 / 2 ^ 17 := Nat.shiftRight_eq_div_pow _ _
      _ ≤ (c ^^^ v) % 4294967296 := Nat.div_le_self _ _
      _ < 4294967296 := hm
  have h32 : (4294967296 : Nat) = 2 ^ 32 := by norm_num
  rw [h32] at h1 h2 ⊢
  exact Nat.xor_lt_two_pow h1 h2

theorem pg_checksum_data_lt (data : List Nat) (s : Nat) :
    pg_checksum_data data s < 4294967296 := by
  unfold pg_checksum_data
  have h : ∀ (l : List Nat) (a : Nat), a < 4294967296 →
      l.foldl CHECKSUM_COMP a < 4294967296 := by
    intro l
    induction l with
    | nil => intro a ha; simpa using ha
    | cons x xs ih =>
      intro a _
      simpa using ih (CHECKSUM_COMP a x) (CHECKSUM_COMP_lt a x)
  exact h data _ (Nat.mod_lt _ (by norm_num))

theorem masked_remap_ne_null (x : Nat) :
    x &&& 0xFFFFFFFE ≠ CHECKSUM_NULL := by
  intro h
  have hb := congrArg (Nat.testBit · 0) h
  simp only [Nat.testBit_and] at hb
  norm_num [CHECKSUM_NULL] at hb

theorem remap_ne_null (c x : Nat) :
    (if c = CHECKSUM_NULL then x &&& 0xFFFFFFFE else c) ≠ CHECKSUM_NULL := by
  by_cases hc : c = CHECKSUM_NULL
  · rw [if_pos hc]; exact masked_remap_ne_null x
  · rw [if_neg hc]; exact hc

/-- C1: For every input to the column checksum
(`pg_column_checksum_internal`), a returned fingerprint equals
`CHECKSUM_NULL` (0xFFFFFFFF) if and only if `isnull` is true: every null
input returns the sentinel unconditionally, and every non-null input that
produces a value produces one different from the sentinel, because the
collision remap (XOR with `attnum` and `typid`, then clearing the low
bit) can never produce the all-ones value. -/
theorem column_checksum_null_iff (catalog : Nat → Option TypeForm)
    (value : Datum) (isnull : Bool) (typid : Nat) (typmod : Int)
    (attnum : Nat) (v : Nat)
    (h : pg_column_checksum_internal catalog value isnull typid typmod attnum
          = .ok v) :
    v = CHECKSUM_NULL ↔ isnull = true := by
  unfold pg_column_checksum_internal at h
  cases isnull with
  | true =>
    rw [if_pos rfl] at h
    cases h
    simp
  | false =>
    rw [if_neg (by simp)] at h
    simp only [Bool.false_eq_true, iff_false]
    intro hv
    subst hv
    split at h
    · cases h
    · split at h
      · cases h
      · injection h with h
        exact remap_ne_null _ _ h

/-- One heap tuple as `pg_tuple_checksum` sees it through an `ItemId`:
its header length `t_hoff`, its raw transaction stamps
(`HeapTupleHeaderGetRawXmin`/`Xmax`, `uint32` values), the
`ItemIdGetLength` bytes starting at `PageGetItem` (header + data), and —
for the column-level functions — the decoded attribute view that
`heap_getattr` exposes, as (datum, isnull) pairs. -/
structure HeapTupleData where
  t_hoff : Nat
  xmin : Nat
  xmax : Nat
  bytes : List Nat
  attrs : List (Datum × Bool)
deriving DecidableEq

/-- One line pointer of a page: `ItemIdIsUsed`, `ItemIdIsDead`, and the
tuple it points at. -/
structure ItemIdData where
  used : Bool
  dead : Bool
  tuple : HeapTupleData
deriving DecidableEq

/-- A heap page: line pointers at offsets `1 .. items.length`
(`FirstOffsetNumber = 1`, `PageGetMaxOffsetNumber = items.length`,
`PageGetItemId page off = items[off - 1]`). -/
structure Page where
  items : List ItemIdData
deriving DecidableEq

/-- Embedding of `pg_tuple_checksum` (`checksum_tuple.c:66-151`).
`offnum` is a `uint16` `OffsetNumber` and `blkno` a `uint32`
`BlockNumber`; `blkno << 16` truncates to 32 bits as the C `uint32`
shift does.  The C code computes `len -= t_hoff; if (len <= 0) return 0`
on an unsigned `len`, which for a well-formed tuple
(`t_hoff ≤ len < 2^32`) fires exactly when `len = t_hoff`. -/
def pg_tuple_checksum (page : Page) (offnum : Nat) (blkno : Nat)
    (include_header : Bool) : Nat :=
  if offnum < 1 ∨ offnum > page.items.length then 0
  else
    match page.items[offnum - 1]? with
    | none => 0
    | some lp =>
      if ¬ lp.used then 0
      else
        let location_hash := ((blkno <<< 16) % 4294967296) ||| offnum
        let finish := fun (data : List Nat) =>
          let c := pg_checksum_data data location_hash ^^^ location_hash
          let c := if include_header then c
                   else c ^^^ (lp.tuple.xmin ^^^ lp.tuple.xmax)
          if c = CHECKSUM_NULL then
            (CHECKSUM_NULL ^^^ location_hash) &&& 0xFFFFFFFE
          else c
        if include_header then finish lp.tuple.bytes
        else if lp.tuple.bytes.length = lp.tuple.t_hoff then 0
        else finish (lp.tuple.bytes.drop lp.tuple.t_hoff)

theorem lor_mod_two_pow_32 (a b : Nat) :
    (a ||| b) % 2 ^ 32 = (a % 2 ^ 32) ||| (b % 2 ^ 32) := by
  apply Nat.eq_of_testBit_eq
  intro i
  simp only [Nat.testBit_mod_two_pow, Nat.testBit_lor, Bool.and_or_distrib_left]

/-- Normal form of `pg_tuple_checksum` on a valid, used slot whose
selected span is non-empty: the guard branches all fall through and the
result is the mix-bind-version-remap pipeline. -/
theorem pg_tuple_checksum_valid (page : Page) (offnum blkno : Nat)
    (include_header : Bool) (lp : ItemIdData)
    (hlo : 1 ≤ offnum) (hhi : offnum ≤ page.items.length)
    (hlp : page.items[offnum - 1]? = some lp)
    (hused : lp.used = true)
    (hspan : include_header = false →
      lp.tuple.bytes.length ≠ lp.tuple.t_hoff) :
    pg_tuple_checksum page offnum blkno include_header =
      (if (pg_checksum_data
            (if include_header then lp.tuple.bytes
             else lp.tuple.bytes.drop lp.tuple.t_hoff)
            (((blkno <<< 16) % 4294967296) ||| offnum)
          ^^^ (((blkno <<< 16) % 4294967296) ||| offnum)
          ^^^ (if include_header then 0
               else lp.tuple.xmin ^^^ lp.tuple.xmax)) = CHECKSUM_NULL then
        (CHECKSUM_NULL ^^^ (((blkno <<< 16) % 4294967296) ||| offnum))
          &&& 0xFFFFFFFE
      else
        pg_checksum_data
            (if include_header then lp.tuple.bytes
             else lp.tuple.bytes.drop lp.tuple.t_hoff)
            (((blkno <<< 16) % 4294967296) ||| offnum)
          ^^^ (((blkno <<< 16) % 4294967296) ||| offnum)
          ^^^ (if include_header then 0
               else lp.tuple.xmin ^^^ lp.tuple.xmax)) := by
  have hcond : ¬ (offnum < 1 ∨ offnum > page.items.length) := by omega
  unfold pg_tuple_checksum
  rw [if_neg hcond, hlp]
  simp only [hused, Bool.not_true, Bool.false_eq_true, if_false]
  cases include_header with
  | true => simp [Nat.xor_assoc]
  | false =>
    rw [if_neg (by simp), if_neg (hspan rfl)]
    simp [Nat.xor_assoc]

/-- Specified tuple-checksum composition, written from the spec's words
(§4.3 and claim C2): `location_seed = (container_block_id << 16) |
offset_in_container` in 32-bit arithmetic; `raw = mix(span,
location_seed) XOR location_seed`; when the header is excluded `raw` is
further XORed with `creation_txn_id XOR supersession_txn_id`; finally
the `NULL_MARK` collision remap seeded with `location_seed` is applied. -/
def checksum_tuple_composition (span : List Nat)
    (container_block_id offset_in_container : Nat)
    (creation_txn_id supersession_txn_id : Nat)
    (include_header : Bool) : Nat :=
  let location_seed :=
    ((container_block_id <<< 16) ||| offset_in_container) % 4294967296
  let raw := pg_checksum_data span location_seed ^^^ location_seed
  let versioned := if include_header then raw
                   else raw ^^^ (creation_txn_id ^^^ supersession_txn_id)
  if versioned = CHECKSUM_NULL then
    (CHECKSUM_NULL ^^^ location_seed) &&& 0xFFFFFFFE
  else versioned

/-- C2: For every used tuple slot with non-empty selected span,
`pg_tuple_checksum` computes exactly the specified composition: the
location seed `(container_block_id << 16) | offset_in_container`, the
span mixed with that seed, the XOR with the seed, the XOR with
`creation_txn_id XOR supersession_txn_id` when the header is excluded,
and the `NULL_MARK` collision remap. -/
theorem tuple_checksum_matches_composition (page : Page)
    (offnum blkno : Nat) (include_header : Bool) (lp : ItemIdData)
    (hlo : 1 ≤ offnum) (hhi : offnum ≤ page.items.length)
    (hoff16 : offnum < 65536)
    (hlp : page.items[offnum - 1]? = some lp)
    (hused : lp.used = true)
    (hspan : include_header = false →
      lp.tuple.bytes.length ≠ lp.tuple.t_hoff) :
    pg_tuple_checksum page offnum blkno include_header =
      checksum_tuple_composition
        (if include_header then lp.tuple.bytes
         else lp.tuple.bytes.drop lp.tuple.t_hoff)
        blkno offnum lp.tuple.xmin lp.tuple.xmax include_header := by
  have hseed : ((blkno <<< 16) ||| offnum) % 4294967296 =
      ((blkno <<< 16) % 4294967296) ||| offnum := by
    have h32 : (4294967296 : Nat) = 2 ^ 32 := by norm_num
    rw [h32, lor_mod_two_pow_32, Nat.mod_eq_of_lt (by omega : offnum < 2 ^ 32)]
  rw [pg_tuple_checksum_valid page offnum blkno include_header lp
      hlo hhi hlp hused hspan]
  unfold checksum_tuple_composition
  rw [hseed]
  cases include_header <;> simp [Nat.xor_assoc]

/-- Concrete fixtures for the witness of C2. -/
def cItemC2 : ItemIdData :=
  ⟨true, false, ⟨2, 7, 8, [1, 2, 3, 4], []⟩⟩

def cPageC2 : Page := ⟨[cItemC2]⟩

theorem tuple_checksum_matches_composition_witness :
    cItemC2.used = true ∧
    pg_tuple_checksum cPageC2 1 3 false =
      checksum_tuple_composition
        (cItemC2.tuple.bytes.drop cItemC2.tuple.t_hoff)
        3 1 cItemC2.tuple.xmin cItemC2.tuple.xmax false :=
  ⟨rfl, by
    have h := tuple_checksum_matches_composition cPageC2 1 3 false cItemC2
      (by decide) (by decide) (by decide) (by decide) (by decide)
      (fun _ => by decide)
    simpa using h⟩

/-- Concrete fixture for the witness of C1: a catalog resolving type OID
23 (`int4`) as pass-by-value with width 4. -/
def cCatalogInt4 : Nat → Option TypeForm :=
  fun typid => if typid = 23 then some ⟨true, 4⟩ else none

theorem column_checksum_null_iff_witness :
    (pg_column_checksum_internal cCatalogInt4 (Datum.byval 5) false 23 0 1
       = .ok 1095996982) ∧
    (pg_column_checksum_internal cCatalogInt4 (Datum.byval 5) true 23 0 1
       = .ok CHECKSUM_NULL) ∧
    ((1095996982 : Nat) = CHECKSUM_NULL ↔ false = true) :=
  ⟨by rfl, by rfl,
    column_checksum_null_iff cCatalogInt4 (Datum.byval 5) false 23 0 1
      1095996982 (by rfl)⟩

/-- Concrete fixture shared by nothing else: a one-tuple page whose
tuple has header length 2, stamps (5, 9) and data byte `7`. -/
def cPageLoc : Page := ⟨[⟨true, false, ⟨2, 5, 9, [0, 0, 7], []⟩⟩]⟩

/-- C3 (counterexample): the same page content read as block 0 and as
block 65536 — two different `(container_block_id, offset_in_container)`
pairs — yields the same tuple fingerprint, because the C code computes
the location seed as the `uint32` value `blkno << 16 | offnum`, and
`65536 << 16` overflows to 0.  The fingerprint is a genuinely computed
one (non-zero), with the header excluded and identical stamps on both
sides, so the claimed guarantee fails. -/
theorem tuple_checksum_location_collision :
    ((0 : Nat), (1 : Nat)) ≠ ((65536 : Nat), (1 : Nat)) ∧
    pg_tuple_checksum cPageLoc 1 0 false =
      pg_tuple_checksum cPageLoc 1 65536 false ∧
    pg_tuple_checksum cPageLoc 1 0 false ≠ 0 := by
  refine ⟨by decide, rfl, by decide⟩

/-- C3 (amended): two row snapshots with identical content and stamps at
different locations produce different fingerprints provided their 32-bit
location seeds differ in effect — specifically, whenever the seeded
mixes XORed with their seeds differ and neither pre-remap checksum
equals `CHECKSUM_NULL`.  (The unconditional guarantee fails: seeds
alias when block numbers agree modulo 2^16, the mixer may collide
across seeds, and the collision remap can re-introduce collisions.) -/
theorem tuple_checksum_location_distinct (page1 page2 : Page)
    (off1 blk1 off2 blk2 : Nat) (lp1 lp2 : ItemIdData)
    (hlo1 : 1 ≤ off1) (hhi1 : off1 ≤ page1.items.length)
    (hlp1 : page1.items[off1 - 1]? = some lp1) (hu1 : lp1.used = true)
    (hlo2 : 1 ≤ off2) (hhi2 : off2 ≤ page2.items.length)
    (hlp2 : page2.items[off2 - 1]? = some lp2) (hu2 : lp2.used = true)
    (hsame : lp1.tuple = lp2.tuple)
    (hne : lp1.tuple.bytes.length ≠ lp1.tuple.t_hoff)
    (hmix : pg_checksum_data (lp1.tuple.bytes.drop lp1.tuple.t_hoff)
        (((blk1 <<< 16) % 4294967296) ||| off1)
        ^^^ (((blk1 <<< 16) % 4294967296) ||| off1)
      ≠ pg_checksum_data (lp1.tuple.bytes.drop lp1.tuple.t_hoff)
        (((blk2 <<< 16) % 4294967296) ||| off2)
        ^^^ (((blk2 <<< 16) % 4294967296) ||| off2))
    (hns1 : pg_checksum_data (lp1.tuple.bytes.drop lp1.tuple.t_hoff)
        (((blk1 <<< 16) % 4294967296) ||| off1)
        ^^^ (((blk1 <<< 16) % 4294967296) ||| off1)
        ^^^ (lp1.tuple.xmin ^^^ lp1.tuple.xmax) ≠ CHECKSUM_NULL)
    (hns2 : pg_checksum_data (lp1.tuple.bytes.drop lp1.tuple.t_hoff)
        (((blk2 <<< 16) % 4294967296) ||| off2)
        ^^^ (((blk2 <<< 16) % 4294967296) ||| off2)
        ^^^ (lp1.tuple.xmin ^^^ lp1.tuple.xmax) ≠ CHECKSUM_NULL) :
    pg_tuple_checksum page1 off1 blk1 false ≠
      pg_tuple_checksum page2 off2 blk2 false := by
  rw [pg_tuple_checksum_valid page1 off1 blk1 false lp1 hlo1 hhi1 hlp1 hu1
      (fun _ => hne),
      pg_tuple_checksum_valid page2 off2 blk2 false lp2 hlo2 hhi2 hlp2 hu2
      (fun _ => hsame ▸ hne)]
  rw [← hsame]
  simp only [Bool.false_eq_true, if_false]
  rw [if_neg hns1, if_neg hns2]
  intro heq
  apply hmix
  have := congrArg (· ^^^ (lp1.tuple.xmin ^^^ lp1.tuple.xmax)) heq
  simpa [Nat.xor_assoc] using this

/-- Concrete fixtures for the witness of the amended C3: the same tuple
content at block 0 and at block 1 (both offset 1). -/
def cPageLocA : Page := ⟨[⟨true, false, ⟨2, 5, 9, [0, 0, 7], []⟩⟩]⟩

def cPageLocB : Page := ⟨[⟨true, false, ⟨2, 5, 9, [0, 0, 7], []⟩⟩]⟩

theorem tuple_checksum_location_distinct_witness :
    (⟨2, 5, 9, [0, 0, 7], []⟩ : HeapTupleData) = ⟨2, 5, 9, [0, 0, 7], []⟩ ∧
    pg_tuple_checksum cPageLocA 1 0 false ≠
      pg_tuple_checksum cPageLocB 1 1 false :=
  ⟨rfl, tuple_checksum_location_distinct cPageLocA cPageLocB 1 0 1 1
    ⟨true, false, ⟨2, 5, 9, [0, 0, 7], []⟩⟩
    ⟨true, false, ⟨2, 5, 9, [0, 0, 7], []⟩⟩
    (by decide) (by decide) (by rfl) (by rfl)
    (by decide) (by decide) (by rfl) (by rfl)
    rfl (by decide) (by decide) (by decide) (by decide)⟩

/-- Concrete fixtures for C4: identical data bytes and location, stamp
pairs (1, 1) versus (2, 2). -/
def cPageVerA : Page := ⟨[⟨true, false, ⟨2, 1, 1, [0, 0, 7], []⟩⟩]⟩

def cPageVerB : Page := ⟨[⟨true, false, ⟨2, 2, 2, [0, 0, 7], []⟩⟩]⟩

/-- C4 (counterexample): two row snapshots at the same location with
identical data bytes but different `(creation_txn_id,
supersession_txn_id)` pairs — (1, 1) versus (2, 2) — receive the same
fingerprint with the header excluded, because the code only folds in
`xmin XOR xmax`, which is 0 for both pairs. -/
theorem tuple_checksum_version_collision :
    ((1 : Nat), (1 : Nat)) ≠ ((2 : Nat), (2 : Nat)) ∧
    pg_tuple_checksum cPageVerA 1 0 false =
      pg_tuple_checksum cPageVerB 1 0 false ∧
    pg_tuple_checksum cPageVerA 1 0 false ≠ 0 := by
  refine ⟨by decide, by decide, by decide⟩

/-- C4 (amended): two row snapshots at the same location with identical
byte content but different visibility stamps produce different
fingerprints provided the stamps differ in their XOR
(`creation_txn_id XOR supersession_txn_id`) and neither pre-remap
checksum equals `CHECKSUM_NULL`.  (Stamp pairs with equal XOR collide,
and the collision remap can also re-introduce a collision.) -/
theorem tuple_checksum_version_distinct (page1 page2 : Page)
    (offnum blkno : Nat) (lp1 lp2 : ItemIdData)
    (hlo1 : 1 ≤ offnum) (hhi1 : offnum ≤ page1.items.length)
    (hlp1 : page1.items[offnum - 1]? = some lp1) (hu1 : lp1.used = true)
    (hhi2 : offnum ≤ page2.items.length)
    (hlp2 : page2.items[offnum - 1]? = some lp2) (hu2 : lp2.used = true)
    (hbytes : lp1.tuple.bytes = lp2.tuple.bytes)
    (hhoff : lp1.tuple.t_hoff = lp2.tuple.t_hoff)
    (hne : lp1.tuple.bytes.length ≠ lp1.tuple.t_hoff)
    (hm : lp1.tuple.xmin ^^^ lp1.tuple.xmax ≠
          lp2.tuple.xmin ^^^ lp2.tuple.xmax)
    (hns1 : pg_checksum_data (lp1.tuple.bytes.drop lp1.tuple.t_hoff)
        (((blkno <<< 16) % 4294967296) ||| offnum)
        ^^^ (((blkno <<< 16) % 4294967296) ||| offnum)
        ^^^ (lp1.tuple.xmin ^^^ lp1.tuple.xmax) ≠ CHECKSUM_NULL)
    (hns2 : pg_checksum_data (lp1.tuple.bytes.drop lp1.tuple.t_hoff)
        (((blkno <<< 16) % 4294967296) ||| offnum)
        ^^^ (((blkno <<< 16) % 4294967296) ||| offnum)
        ^^^ (lp2.tuple.xmin ^^^ lp2.tuple.xmax) ≠ CHECKSUM_NULL) :
    pg_tuple_checksum page1 offnum blkno false ≠
      pg_tuple_checksum page2 offnum blkno false := by
  rw [pg_tuple_checksum_valid page1 offnum blkno false lp1 hlo1 hhi1 hlp1 hu1
      (fun _ => hne),
      pg_tuple_checksum_valid page2 offnum blkno false lp2 hlo1 hhi2 hlp2 hu2
      (fun _ => by rw [← hbytes, ← hhoff]; exact hne)]
  rw [← hbytes, ← hhoff]
  simp only [Bool.false_eq_true, if_false]
  rw [if_neg hns1, if_neg hns2]
  intro heq
  apply hm
  have h2 := congrArg
    (fun x => (pg_checksum_data (lp1.tuple.bytes.drop lp1.tuple.t_hoff)
        (((blkno <<< 16) % 4294967296) ||| offnum)
      ^^^ (((blkno <<< 16) % 4294967296) ||| offnum)) ^^^ x) heq
  simpa [← Nat.xor_assoc] using h2

theorem tuple_checksum_version_distinct_witness :
    [0, 0, 7] = [0, 0, 7] ∧
    pg_tuple_checksum (⟨[⟨true, false, ⟨2, 1, 2, [0, 0, 7], []⟩⟩]⟩ : Page)
        1 0 false ≠
      pg_tuple_checksum (⟨[⟨true, false, ⟨2, 1, 3, [0, 0, 7], []⟩⟩]⟩ : Page)
        1 0 false :=
  ⟨rfl, tuple_checksum_version_distinct
    ⟨[⟨true, false, ⟨2, 1, 2, [0, 0, 7], []⟩⟩]⟩
    ⟨[⟨true, false, ⟨2, 1, 3, [0, 0, 7], []⟩⟩]⟩ 1 0
    ⟨true, false, ⟨2, 1, 2, [0, 0, 7], []⟩⟩
    ⟨true, false, ⟨2, 1, 3, [0, 0, 7], []⟩⟩
    (by decide) (by decide) (by rfl) (by rfl)
    (by decide) (by rfl) (by rfl)
    rfl rfl (by decide) (by decide) (by decide) (by decide)⟩

/-- C8: `pg_tuple_checksum` recovers locally instead of failing: it
returns the zero fingerprint for every offset outside
`[FirstOffsetNumber, PageGetMaxOffsetNumber]`, for every unused slot,
and — when the header is excluded — for every tuple whose data-only
span is empty (`len = t_hoff`). -/
theorem tuple_checksum_invalid_zero (page : Page)
    (offnum blkno : Nat) (include_header : Bool) :
    (offnum < 1 ∨ offnum > page.items.length →
      pg_tuple_checksum page offnum blkno include_header = 0) ∧
    (∀ lp, page.items[offnum - 1]? = some lp → lp.used = false →
      pg_tuple_checksum page offnum blkno include_header = 0) ∧
    (∀ lp, page.items[offnum - 1]? = some lp →
      lp.tuple.bytes.length = lp.tuple.t_hoff →
      pg_tuple_checksum page offnum blkno false = 0) := by
  refine ⟨?_, ?_, ?_⟩
  · intro h
    unfold pg_tuple_checksum
    rw [if_pos h]
  · intro lp hlp hunused
    unfold pg_tuple_checksum
    by_cases h : offnum < 1 ∨ offnum > page.items.length
    · rw [if_pos h]
    · rw [if_neg h, hlp]
      simp [hunused]
  · intro lp hlp hempty
    unfold pg_tuple_checksum
    by_cases h : offnum < 1 ∨ offnum > page.items.length
    · rw [if_pos h]
    · rw [if_neg h, hlp]
      by_cases hu : lp.used
      · simp [hu, hempty]
      · simp [hu]

/-- Concrete fixture for the witness of C8: a one-slot page whose slot
is unused and whose tuple has an empty data-only span. -/
def cPageC8 : Page := ⟨[⟨false, false, ⟨3, 1, 2, [0, 0, 0], []⟩⟩]⟩

theorem tuple_checksum_invalid_zero_witness :
    pg_tuple_checksum cPageC8 0 7 false = 0 ∧
    pg_tuple_checksum cPageC8 2 7 false = 0 ∧
    pg_tuple_checksum cPageC8 1 7 false = 0 :=
  ⟨(tuple_checksum_invalid_zero cPageC8 0 7 false).1 (by decide),
   (tuple_checksum_invalid_zero cPageC8 2 7 false).1 (by decide),
   (tuple_checksum_invalid_zero cPageC8 1 7 false).2.1
     ⟨false, false, ⟨3, 1, 2, [0, 0, 0], []⟩⟩ (by rfl) (by rfl)⟩

/-- One index tuple: its `t_tid` item pointer (block and offset of the
heap row it references) and its `IndexTupleSize` bytes. -/
structure IndexTupleData where
  tid_blk : Nat
  tid_off : Nat
  bytes : List Nat
deriving DecidableEq

/-- `BTREE_AM_OID`, the access-method OID the source compares
`tdtypeid` against. -/
def BTREE_AM_OID : Nat := 403

/-- Embedding of `pg_index_tuple_checksum` (`checksum_index.c`): mix the
tuple bytes seeded with the page offset, fold in the heap TID for
B-tree descriptors, and apply the `CHECKSUM_NULL` remap seeded with
`(attno, length)`.  `tid_off` is a `uint16`, so `tid_off << 16` fits in
32 bits after the `uint32` assignment truncates. -/
def pg_index_tuple_checksum (itup : IndexTupleData) (tdtypeid : Nat)
    (attno : Nat) : Nat :=
  let len := itup.bytes.length
  let checksum := pg_checksum_data itup.bytes attno
  let checksum :=
    if tdtypeid = BTREE_AM_OID then
      (checksum ^^^ itup.tid_blk) ^^^ ((itup.tid_off <<< 16) % 4294967296)
    else checksum
  if checksum = CHECKSUM_NULL then
    (CHECKSUM_NULL ^^^ attno ^^^ len) &&& 0xFFFFFFFE
  else checksum

/-- One line pointer of an index page. -/
structure IndexItemIdData where
  used : Bool
  dead : Bool
  itup : IndexTupleData
deriving DecidableEq

/-- One index page: `PageIsNew` flag plus line pointers at offsets
`1 .. items.length`. -/
structure IndexPage where
  isNew : Bool
  items : List IndexItemIdData
deriving DecidableEq

/-- 64-bit XOR term contributed per live index entry by
`process_index_for_checksum` (`checksum_database.c:158-159`):
`((uint64) idx_checksum << 32) | (uint64) idxRel->rd_id`.  Both inputs
are `uint32` values. -/
def index_tuple_contribution (idx_checksum relid : Nat) : Nat :=
  (idx_checksum <<< 32) ||| relid

/-- 64-bit XOR term contributed per visible heap tuple by
`process_relation_for_checksum` (`checksum_database.c:253-254`):
`((uint64) tuple_checksum << 32) | (uint64) relid`.  Both inputs are
`uint32` values. -/
def heap_tuple_contribution (tuple_checksum relid : Nat) : Nat :=
  (tuple_checksum <<< 32) ||| relid

/-- Inner offset-indexed loop of `process_index_for_checksum`
(`checksum_database.c:130-162`): live (used, non-dead) entries at
offsets `offnum, offnum+1, ...` are checksummed and XOR-folded into the
accumulator together with the relation OID. -/
def process_index_page_items : List IndexItemIdData → Nat → Nat → Nat →
    Nat → Nat
  | [], _, _, _, acc => acc
  | item :: rest, offnum, relid, tdtypeid, acc =>
    process_index_page_items rest (offnum + 1) relid tdtypeid
      (if item.used && !item.dead then
        acc ^^^ index_tuple_contribution
          (pg_index_tuple_checksum item.itup tdtypeid offnum) relid
       else acc)

/-- Embedding of `process_index_for_checksum`
(`checksum_database.c:87-173`): every non-new page's live entries are
folded into the accumulator; new (uninitialized) pages are skipped. -/
def process_index_for_checksum (relid tdtypeid : Nat)
    (pages : List IndexPage) (acc : Nat) : Nat :=
  pages.foldl
    (fun a pg => if pg.isNew then a
                 else process_index_page_items pg.items 1 relid tdtypeid a)
    acc

/-- One visible heap tuple as the table scan of
`process_relation_for_checksum` / `pg_checksum_table` yields it: the
page it lies on and its block number and offset (`t_self`). -/
structure TableSlot where
  page : Page
  offnum : Nat
  blkno : Nat
deriving DecidableEq

/-- Embedding of the SQL-level `pg_checksum_table` loop
(`checksumfuncs.c:144-192`): XOR of `pg_tuple_checksum` over the scanned
tuples, starting from 0. -/
def pg_checksum_table (slots : List TableSlot) (include_header : Bool) :
    Nat :=
  slots.foldl
    (fun acc s =>
      acc ^^^ pg_tuple_checksum s.page s.offnum s.blkno include_header)
    0

/-- One `pg_class` row as `pg_database_checksum_internal` reads it,
together with the data the per-relation processing functions would scan:
the visible heap tuples for a table-like relation, or the pages (plus
descriptor type OID) for an index. -/
structure RelEntry where
  oid : Nat
  relnamespace : Nat
  relkind : Char
  relpersistence : Char
  tdtypeid : Nat
  heapSlots : List TableSlot
  indexPages : List IndexPage
deriving DecidableEq

/-- Relation kinds accepted by `process_relation_for_checksum`
(`checksum_database.c:203-207`): regular table, index, materialized
view, sequence, toast table. -/
def relkind_processed (relkind : Char) : Bool :=
  relkind = 'r' || relkind = 'i' || relkind = 'm' || relkind = 'S' ||
    relkind = 't'

/-- Embedding of `process_relation_for_checksum`
(`checksum_database.c:186-269`): unsupported relation kinds contribute
nothing; indexes are processed page by page; other accepted kinds are
scanned tuple by tuple with `pg_tuple_checksum(..., false)` and the
relation-OID-salted 64-bit contribution. -/
def process_relation_for_checksum (e : RelEntry) (acc : Nat) : Nat :=
  if ¬ relkind_processed e.relkind then acc
  else if e.relkind = 'i' then
    process_index_for_checksum e.oid e.tdtypeid e.indexPages acc
  else
    e.heapSlots.foldl
      (fun a s =>
        a ^^^ heap_tuple_contribution
          (pg_tuple_checksum s.page s.offnum s.blkno false) e.oid)
      acc

/-- `PG_CATALOG_NAMESPACE` (OID 11). -/
def PG_CATALOG_NAMESPACE : Nat := 11

/-- `PG_TOAST_NAMESPACE` (OID 99). -/
def PG_TOAST_NAMESPACE : Nat := 99

/-- Inclusion filter applied per `pg_class` row by the scan loop of
`pg_database_checksum_internal` (`checksum_database.c:356-365`): with
`include_system` false, rows of the catalog or toast namespaces are
skipped; with `include_toast` false, toast-kind rows are skipped;
unlogged rows (`relpersistence = 'u'`) are always skipped. -/
def relation_filtered_out (include_system include_toast : Bool)
    (e : RelEntry) : Bool :=
  (!include_system &&
    (e.relnamespace = PG_CATALOG_NAMESPACE ||
     e.relnamespace = PG_TOAST_NAMESPACE)) ||
  (!include_toast && e.relkind = 't') ||
  (e.relpersistence = 'u')

/-- Embedding of `pg_database_checksum_internal`
(`checksum_database.c:295-385`): fold over the enumerated `pg_class`
rows, skipping filtered ones, starting from the zeroed accumulator. -/
def pg_database_checksum_internal (include_system include_toast : Bool)
    (rels : List RelEntry) : Nat :=
  rels.foldl
    (fun acc e =>
      if relation_filtered_out include_system include_toast e then acc
      else process_relation_for_checksum e acc)
    0

theorem foldl_xor_offset {α : Type} (f : α → Nat) (l : List α)
    (acc : Nat) :
    l.foldl (fun a x => a ^^^ f x) acc =
      acc ^^^ l.foldl (fun a x => a ^^^ f x) 0 := by
  induction l generalizing acc with
  | nil => simp
  | cons x xs ih =>
    simp only [List.foldl_cons]
    rw [ih (acc ^^^ f x), ih (0 ^^^ f x)]
    simp [Nat.xor_assoc]

theorem process_index_page_items_offset (items : List IndexItemIdData)
    (offnum relid tdtypeid acc : Nat) :
    process_index_page_items items offnum relid tdtypeid acc =
      acc ^^^ process_index_page_items items offnum relid tdtypeid 0 := by
  induction items generalizing offnum acc with
  | nil => simp [process_index_page_items]
  | cons item rest ih =>
    simp only [process_index_page_items]
    by_cases hc : item.used && !item.dead
    · rw [if_pos hc, if_pos hc, ih,
        ih (offnum + 1) (0 ^^^ index_tuple_contribution
          (pg_index_tuple_checksum item.itup tdtypeid offnum) relid)]
      simp [Nat.xor_assoc]
    · rw [if_neg hc, if_neg hc, ih]

theorem process_index_for_checksum_offset (relid tdtypeid : Nat)
    (pages : List IndexPage) (acc : Nat) :
    process_index_for_checksum relid tdtypeid pages acc =
      acc ^^^ process_index_for_checksum relid tdtypeid pages 0 := by
  unfold process_index_for_checksum
  induction pages generalizing acc with
  | nil => simp
  | cons pg rest ih =>
    simp only [List.foldl_cons]
    by_cases hn : pg.isNew
    · rw [if_pos hn, if_pos hn, ih]
    · rw [if_neg hn, if_neg hn, ih,
        ih (process_index_page_items pg.items 1 relid tdtypeid 0),
        process_index_page_items_offset pg.items 1 relid tdtypeid acc]
      simp [Nat.xor_assoc]

theorem process_relation_for_checksum_offset (e : RelEntry) (acc : Nat) :
    process_relation_for_checksum e acc =
      acc ^^^ process_relation_for_checksum e 0 := by
  unfold process_relation_for_checksum
  by_cases hk : relkind_processed e.relkind = true
  · rw [if_neg (not_not_intro hk), if_neg (not_not_intro hk)]
    by_cases hi : e.relkind = 'i'
    · rw [if_pos hi, if_pos hi, process_index_for_checksum_offset]
    · rw [if_neg hi, if_neg hi, foldl_xor_offset, foldl_xor_offset _ _ 0]
  · rw [if_pos hk, if_pos hk]
    simp

/-- C5: the table aggregate and the database aggregate are XOR-folds of
per-entry contributions starting from 0: an aggregate over zero entries
is 0, and any permutation of the scan order yields the same final
value. -/
theorem aggregate_xor_fold_properties (include_header : Bool)
    (include_system include_toast : Bool)
    (slots1 slots2 : List TableSlot) (rels1 rels2 : List RelEntry)
    (hperm : slots1.Perm slots2) (hrperm : rels1.Perm rels2) :
    pg_checksum_table [] include_header = 0 ∧
    pg_database_checksum_internal include_system include_toast [] = 0 ∧
    pg_checksum_table slots1 include_header =
      pg_checksum_table slots2 include_header ∧
    pg_database_checksum_internal include_system include_toast rels1 =
      pg_database_checksum_internal include_system include_toast rels2 := by
  refine ⟨rfl, rfl, ?_, ?_⟩
  · unfold pg_checksum_table
    refine hperm.foldl_eq' ?_ 0
    intro x _ y _ z
    simp only [Nat.xor_assoc]
    rw [Nat.xor_comm (pg_tuple_checksum x.page x.offnum x.blkno
      include_header) (pg_tuple_checksum y.page y.offnum y.blkno
      include_header)]
  · unfold pg_database_checksum_internal
    refine hrperm.foldl_eq' ?_ 0
    intro x _ y _ z
    by_cases hx : relation_filtered_out include_system include_toast x <;>
      by_cases hy : relation_filtered_out include_system include_toast y <;>
        simp only [hx, hy, if_pos, if_neg, if_true, if_false,
          Bool.true_eq_false, Bool.false_eq_true]
    rw [process_relation_for_checksum_offset y
        (process_relation_for_checksum x z),
      process_relation_for_checksum_offset x z,
      process_relation_for_checksum_offset x
        (process_relation_for_checksum y z),
      process_relation_for_checksum_offset y z]
    simp only [Nat.xor_assoc]
    rw [Nat.xor_comm (process_relation_for_checksum x 0)
      (process_relation_for_checksum y 0)]

/-- Concrete fixtures for the witness of C5. -/
def cSlotA : TableSlot := ⟨⟨[⟨true, false, ⟨2, 1, 2, [0, 0, 7], []⟩⟩]⟩, 1, 0⟩

def cSlotB : TableSlot := ⟨⟨[⟨true, false, ⟨2, 3, 4, [0, 0, 8], []⟩⟩]⟩, 1, 1⟩

def cRelR : RelEntry := ⟨10001, 2200, 'r', 'p', 0, [cSlotA], []⟩

def cRelS : RelEntry := ⟨10002, 2200, 'r', 'p', 0, [cSlotB], []⟩

theorem aggregate_xor_fold_properties_witness :
    ([cSlotA, cSlotB].Perm [cSlotB, cSlotA]) ∧
    pg_checksum_table [] false = 0 ∧
    pg_checksum_table [cSlotA, cSlotB] false =
      pg_checksum_table [cSlotB, cSlotA] false ∧
    pg_database_checksum_internal false false [cRelR, cRelS] =
      pg_database_checksum_internal false false [cRelS, cRelR] :=
  ⟨List.Perm.swap cSlotB cSlotA [],
   (aggregate_xor_fold_properties false false false
      [cSlotA, cSlotB] [cSlotB, cSlotA] [cRelR, cRelS] [cRelS, cRelR]
      (List.Perm.swap cSlotB cSlotA []) (List.Perm.swap cRelS cRelR [])).1,
   (aggregate_xor_fold_properties false false false
      [cSlotA, cSlotB] [cSlotB, cSlotA] [cRelR, cRelS] [cRelS, cRelR]
      (List.Perm.swap cSlotB cSlotA []) (List.Perm.swap cRelS cRelR [])).2.2.1,
   (aggregate_xor_fold_properties false false false
      [cSlotA, cSlotB] [cSlotB, cSlotA] [cRelR, cRelS] [cRelS, cRelR]
      (List.Perm.swap cSlotB cSlotA []) (List.Perm.swap cRelS cRelR [])).2.2.2⟩

/-- C6 (counterexample): an index-entry contribution and a row-tuple
contribution with the same fingerprint value and the same container
salt are the identical 64-bit XOR term — they alias. -/
theorem contribution_alias :
    index_tuple_contribution 1 2 = heap_tuple_contribution 1 2 ∧
    index_tuple_contribution 1 2 ≠ 0 := ⟨rfl, by decide⟩

theorem contribution_low (c r : Nat) (hr : r < 2 ^ 32) :
    ((c <<< 32) ||| r) % 2 ^ 32 = r := by
  have h0 : (c <<< 32) % 2 ^ 32 = 0 := by
    rw [Nat.shiftLeft_eq]; exact Nat.mul_mod_left _ _
  calc ((c <<< 32) ||| r) % 2 ^ 32
      = ((c <<< 32) % 2 ^ 32) ||| (r % 2 ^ 32) := lor_mod_two_pow_32 _ _
    _ = r := by rw [h0, Nat.mod_eq_of_lt hr]; simp

theorem contribution_high (c r : Nat) (hr : r < 2 ^ 32) :
    ((c <<< 32) ||| r) >>> 32 = c := by
  apply Nat.eq_of_testBit_eq
  intro i
  rw [Nat.testBit_shiftRight, Nat.testBit_lor, Nat.testBit_shiftLeft]
  have hf : r.testBit (32 + i) = false := by
    apply Nat.testBit_lt_two_pow
    calc r < 2 ^ 32 := hr
      _ ≤ 2 ^ (32 + i) := Nat.pow_le_pow_right (by norm_num) (by omega)
  simp [hf]

/-- C6 (amended): row-tuple and index-entry contributions are combined
by the identical formula `(fingerprint << 32) | container_oid` — not at
distinguishable bit positions — so an index contribution equals a row
contribution exactly when fingerprint and container salt agree;
distinctness in practice rests solely on relation OIDs differing. -/
theorem contribution_alias_iff (c c' r r' : Nat)
    (hr : r < 2 ^ 32) (hr' : r' < 2 ^ 32) :
    (∀ a b : Nat, index_tuple_contribution a b = heap_tuple_contribution a b) ∧
    (index_tuple_contribution c r = heap_tuple_contribution c' r' ↔
      (c = c' ∧ r = r')) := by
  refine ⟨fun _ _ => rfl, ?_, ?_⟩
  · intro h
    unfold index_tuple_contribution heap_tuple_contribution at h
    constructor
    · have h2 : ((c <<< 32) ||| r) >>> 32 = ((c' <<< 32) ||| r') >>> 32 :=
        congrArg (· >>> 32) h
      rwa [contribution_high c r hr, contribution_high c' r' hr'] at h2
    · have h2 : ((c <<< 32) ||| r) % 2 ^ 32 = ((c' <<< 32) ||| r') % 2 ^ 32 :=
        congrArg (· % 2 ^ 32) h
      rwa [contribution_low c r hr, contribution_low c' r' hr'] at h2
  · rintro ⟨rfl, rfl⟩
    rfl

theorem contribution_alias_iff_witness :
    ((2 : Nat) < 2 ^ 32) ∧
    (index_tuple_contribution 1 2 = heap_tuple_contribution 1 2 ↔
      ((1 : Nat) = 1 ∧ (2 : Nat) = 2)) :=
  ⟨by norm_num, (contribution_alias_iff 1 1 2 2 (by norm_num) (by norm_num)).2⟩

/-- Concrete fixture for the counterexample of C7: a temporary
(`relpersistence = 't'`) ordinary table in a user namespace holding one
visible tuple. -/
def cRelTemp : RelEntry :=
  ⟨10003, 2200, 'r', 't', 0,
   [⟨⟨[⟨true, false, ⟨2, 1, 2, [0, 0, 7], []⟩⟩]⟩, 1, 0⟩], []⟩

/-- C7 (counterexample): the orchestrator's filter does not exclude
every non-durable relation — a temporary relation (persistence 't',
not permanent) contributes to the database checksum: with both
inclusion flags false a lone temporary table yields a non-zero
aggregate. -/
theorem database_checksum_includes_temp :
    cRelTemp.relpersistence ≠ 'p' ∧
    pg_database_checksum_internal false false [cRelTemp] ≠ 0 := by
  refine ⟨by decide, by decide⟩

/-- C7 (amended): the database orchestrator always excludes unlogged
relations (`relpersistence = 'u'`) from the aggregate, regardless of the
`include_system`/`include_toast` filters; temporary relations are not
excluded by the persistence test. -/
theorem database_checksum_skips_unlogged
    (include_system include_toast : Bool) (rels : List RelEntry) :
    pg_database_checksum_internal include_system include_toast rels =
      pg_database_checksum_internal include_system include_toast
        (rels.filter fun e => !(e.relpersistence == 'u')) := by
  unfold pg_database_checksum_internal
  generalize (0 : Nat) = acc
  induction rels generalizing acc with
  | nil => rfl
  | cons e rest ih =>
    by_cases hu : e.relpersistence = 'u'
    · have hfo : relation_filtered_out include_system include_toast e
          = true := by
        unfold relation_filtered_out
        simp [hu]
      have hkeep : (!(e.relpersistence == 'u')) = false := by
        simp [hu]
      simp only [List.filter_cons, hkeep, List.foldl_cons, hfo, if_true,
        Bool.false_eq_true, if_false]
      exact ih acc
    · have hkeep : (!(e.relpersistence == 'u')) = true := by
        simp [hu]
      simp only [List.filter_cons, hkeep, List.foldl_cons, if_true]
      exact ih _

/-- C9: with `include_system = false`, `pg_database_checksum_internal`
skips every relation of the toast namespace (together with the
system-catalog namespace), so toast tables contribute nothing to the
database checksum even when `include_toast = true`; and — given the
catalog invariant that toast-kind relations live in the toast
namespace — the `include_toast` flag cannot change the result when
`include_system = false`. -/
theorem database_checksum_toast_needs_system
    (include_toast : Bool) (rels : List RelEntry)
    (hinv : ∀ e ∈ rels, e.relkind = 't' →
      e.relnamespace = PG_TOAST_NAMESPACE) :
    pg_database_checksum_internal false include_toast rels =
      pg_database_checksum_internal false include_toast
        (rels.filter fun e => !(e.relnamespace == PG_TOAST_NAMESPACE)) ∧
    pg_database_checksum_internal false true rels =
      pg_database_checksum_internal false false rels := by
  constructor
  · unfold pg_database_checksum_internal
    generalize (0 : Nat) = acc
    clear hinv
    induction rels generalizing acc with
    | nil => rfl
    | cons e rest ih =>
      by_cases ht : e.relnamespace = PG_TOAST_NAMESPACE
      · have hfo : relation_filtered_out false include_toast e = true := by
          unfold relation_filtered_out
          simp [ht]
        have hkeep : (!(e.relnamespace == PG_TOAST_NAMESPACE)) = false := by
          simp [ht]
        simp only [List.filter_cons, hkeep, List.foldl_cons, hfo, if_true,
          Bool.false_eq_true, if_false]
        exact ih acc
      · have hkeep : (!(e.relnamespace == PG_TOAST_NAMESPACE)) = true := by
          simp [ht]
        simp only [List.filter_cons, hkeep, List.foldl_cons, if_true]
        exact ih _
  · unfold pg_database_checksum_internal
    generalize (0 : Nat) = acc
    induction rels generalizing acc with
    | nil => rfl
    | cons e rest ih =>
      have hrest : ∀ x ∈ rest, x.relkind = 't' →
          x.relnamespace = PG_TOAST_NAMESPACE :=
        fun x hx => hinv x (List.mem_cons_of_mem e hx)
      have he := hinv e (List.mem_cons_self e rest)
      by_cases hns : e.relnamespace = PG_CATALOG_NAMESPACE ∨
          e.relnamespace = PG_TOAST_NAMESPACE
      · have h1 : relation_filtered_out false true e = true := by
          unfold relation_filtered_out
          rcases hns with h | h <;> simp [h]
        have h2 : relation_filtered_out false false e = true := by
          unfold relation_filtered_out
          rcases hns with h | h <;> simp [h]
        simp only [List.foldl_cons, h1, h2, if_true]
        exact ih hrest acc
      · have hkind : ¬ e.relkind = 't' := by
          intro hk
          exact hns (Or.inr (he hk))
        have h1 : relation_filtered_out false true e =
            relation_filtered_out false false e := by
          unfold relation_filtered_out
          push_neg at hns
          simp [hns.1, hns.2, hkind]
        simp only [List.foldl_cons, h1]
        by_cases hf : relation_filtered_out false false e = true
        · simp only [hf, if_true]
          exact ih hrest acc
        · simp only [hf, Bool.false_eq_true, if_false,
            eq_false_of_ne_true hf]
          exact ih hrest _

/-- Concrete fixture for the witness of C9: a toast table (kind 't',
toast namespace) holding one visible tuple. -/
def cRelToast : RelEntry :=
  ⟨10004, 99, 't', 'p', 0,
   [⟨⟨[⟨true, false, ⟨2, 1, 2, [0, 0, 7], []⟩⟩]⟩, 1, 0⟩], []⟩

theorem database_checksum_toast_needs_system_witness :
    (∀ e ∈ [cRelToast], e.relkind = 't' →
      e.relnamespace = PG_TOAST_NAMESPACE) ∧
    (pg_database_checksum_internal false true [cRelToast] =
       pg_database_checksum_internal false true
         ([cRelToast].filter fun e =>
           !(e.relnamespace == PG_TOAST_NAMESPACE)) ∧
     pg_database_checksum_internal false true [cRelToast] =
       pg_database_checksum_internal false false [cRelToast]) :=
  ⟨by decide,
   database_checksum_toast_needs_system true [cRelToast] (by decide)⟩

/-- Whether `column_span` succeeds for the given looked-up type and
datum — i.e. whether the storage-class dispatch of
`pg_column_checksum_internal` reaches a checksum rather than an error. -/
def span_ok (typeForm : TypeForm) (value : Datum) : Bool :=
  match column_span typeForm value with
  | .ok _ => true
  | .error _ => false

/-- Embedding of `pg_tuple_column_checksum` (`checksum_column.c:187-221`):
validate the attribute number against the descriptor, extract the
attribute as `heap_getattr` does (attributes beyond the stored ones read
as null), and delegate to `pg_column_checksum_internal`. -/
def pg_tuple_column_checksum (catalog : Nat → Option TypeForm)
    (tuple : HeapTupleData) (attnum : Int)
    (tupleDesc : List (Nat × Int)) : Except CkError Nat :=
  if attnum ≤ 0 ∨ attnum > (tupleDesc.length : Int) then
    .error .invalidAttnum
  else
    match tupleDesc[attnum.toNat - 1]? with
    | none => .error .invalidAttnum
    | some (typid, typmod) =>
      pg_column_checksum_internal catalog
        (tuple.attrs.getD (attnum.toNat - 1) (Datum.byval 0, true)).1
        (tuple.attrs.getD (attnum.toNat - 1) (Datum.byval 0, true)).2
        typid typmod attnum.toNat

/-- Embedding of the SQL entry point `pg_checksum_column`
(`checksumfuncs.c:283-342`): reject a non-positive attribute number,
an attribute number beyond the relation's column count, and a tid whose
slot is not in use, each with `ereport(ERROR, ...)`; otherwise compute
the column fingerprint.  The C code calls `PageGetItemId` without a
range check, so an out-of-range offset reads past the line-pointer
array (undefined behaviour); it is modelled as an error and excluded by
hypothesis in the theorems below. -/
def pg_checksum_column (catalog : Nat → Option TypeForm)
    (tupleDesc : List (Nat × Int)) (page : Page) (offnum : Nat)
    (attnum : Int) : Except CkError Nat :=
  if attnum ≤ 0 then .error .invalidAttnum
  else if attnum > (tupleDesc.length : Int) then .error .invalidAttnum
  else
    match page.items[offnum - 1]? with
    | none => .error .invalidPosition
    | some lp =>
      if ¬ lp.used then .error .tupleNotUsed
      else pg_tuple_column_checksum catalog lp.tuple attnum tupleDesc

/-- Environmental well-formedness of a tuple against a descriptor and
catalog: every column's type OID resolves, and every non-null stored
attribute matches its type's storage class.  This is the catalog/datum
consistency PostgreSQL guarantees for real relations. -/
def tuple_well_typed (catalog : Nat → Option TypeForm)
    (tupleDesc : List (Nat × Int)) (tuple : HeapTupleData) : Bool :=
  (List.range tupleDesc.length).all fun i =>
    match tupleDesc[i]? with
    | none => true
    | some (typid, _) =>
      match catalog typid with
      | none => false
      | some typeForm =>
        (tuple.attrs.getD i (Datum.byval 0, true)).2 ||
          span_ok typeForm (tuple.attrs.getD i (Datum.byval 0, true)).1

theorem tuple_column_checksum_ok (catalog : Nat → Option TypeForm)
    (tuple : HeapTupleData) (attnum : Int)
    (tupleDesc : List (Nat × Int))
    (h0 : ¬ attnum ≤ 0) (h1 : ¬ attnum > (tupleDesc.length : Int))
    (hwt : tuple_well_typed catalog tupleDesc tuple = true) :
    ∃ v, pg_tuple_column_checksum catalog tuple attnum tupleDesc
          = .ok v := by
  unfold pg_tuple_column_checksum
  rw [if_neg (by omega)]
  have hi : attnum.toNat - 1 < tupleDesc.length := by omega
  obtain ⟨⟨typid, typmod⟩, hdesc⟩ :
      ∃ p, tupleDesc[attnum.toNat - 1]? = some p :=
    ⟨_, List.getElem?_eq_getElem hi⟩
  simp only [hdesc]
  have hall := List.all_eq_true.mp hwt (attnum.toNat - 1)
    (List.mem_range.mpr hi)
  simp only [hdesc] at hall
  cases hcat : catalog typid with
  | none => rw [hcat] at hall; cases hall
  | some typeForm =>
    rw [hcat] at hall
    unfold pg_column_checksum_internal
    by_cases hn : (tuple.attrs.getD (attnum.toNat - 1)
        (Datum.byval 0, true)).2 = true
    · exact ⟨CHECKSUM_NULL, by rw [if_pos hn]⟩
    · have hso : span_ok typeForm
          (tuple.attrs.getD (attnum.toNat - 1) (Datum.byval 0, true)).1
          = true := by
        rcases Bool.or_eq_true_iff.mp hall with h | h
        · exact absurd h hn
        · exact h
      unfold span_ok at hso
      cases hsp : column_span typeForm
          (tuple.attrs.getD (attnum.toNat - 1) (Datum.byval 0, true)).1 with
      | error e => rw [hsp] at hso; cases hso
      | ok data =>
        rw [if_neg hn]
        simp only [hcat, hsp]
        exact ⟨_, rfl⟩

/-- C10: the SQL-level column checksum entry point `pg_checksum_column`
raises an error — never returning a zero or sentinel fingerprint as a
recovery value — exactly when the attribute number is not positive,
exceeds the relation's column count, or the tuple slot named by the tid
is not in use; on every other input (with the tid's offset in range and
the tuple well-typed against the catalog) it returns the column
fingerprint. -/
theorem checksum_column_error_iff (catalog : Nat → Option TypeForm)
    (tupleDesc : List (Nat × Int)) (page : Page) (offnum : Nat)
    (attnum : Int) (lp : ItemIdData)
    (hlp : page.items[offnum - 1]? = some lp)
    (hwt : tuple_well_typed catalog tupleDesc lp.tuple = true) :
    (∃ e, pg_checksum_column catalog tupleDesc page offnum attnum
            = .error e) ↔
      (attnum ≤ 0 ∨ attnum > (tupleDesc.length : Int) ∨
        lp.used = false) := by
  unfold pg_checksum_column
  by_cases h0 : attnum ≤ 0
  · simp only [h0, if_pos, true_or, iff_true]
    exact ⟨.invalidAttnum, rfl⟩
  · rw [if_neg h0]
    by_cases h1 : attnum > (tupleDesc.length : Int)
    · simp only [h1, if_pos, true_or, or_true, iff_true]
      exact ⟨.invalidAttnum, rfl⟩
    · rw [if_neg h1]
      simp only [hlp]
      by_cases hu : lp.used = true
      · rw [if_neg (not_not_intro hu)]
        have hok := tuple_column_checksum_ok catalog lp.tuple attnum
          tupleDesc h0 h1 hwt
        constructor
        · rintro ⟨e, he⟩
          obtain ⟨v, hv⟩ := hok
          rw [hv] at he
          cases he
        · intro hcontra
          rcases hcontra with h | h | h
          · exact absurd h h0
          · exact absurd h h1
          · rw [hu] at h; cases h
      · rw [if_pos hu]
        have hfalse : lp.used = false := by
          cases hval : lp.used
          · rfl
          · exact absurd hval hu
        simp only [hfalse, or_true, iff_true]
        exact ⟨.tupleNotUsed, rfl⟩

/-- Concrete fixtures for the witness of C10: an `int4` column holding
the non-null value 5 in a used slot. -/
def cItemC10 : ItemIdData :=
  ⟨true, false, ⟨2, 1, 2, [0, 0, 7], [(Datum.byval 5, false)]⟩⟩

def cPageC10 : Page := ⟨[cItemC10]⟩

theorem checksum_column_error_iff_witness :
    (tuple_well_typed cCatalogInt4 [(23, 0)] cItemC10.tuple = true) ∧
    ((∃ e, pg_checksum_column cCatalogInt4 [(23, 0)] cPageC10 1 1
             = .error e) ↔
      ((1 : Int) ≤ 0 ∨ (1 : Int) > (([((23 : Nat), (0 : Int))].length) : Int)
        ∨ cItemC10.used = false)) :=
  ⟨by decide,
   checksum_column_error_iff cCatalogInt4 [(23, 0)] cPageC10 1 1 cItemC10
     (by rfl) (by decide)⟩
